import Mathlib

/-!
Verification of the upload components of this repository.

Shallow embedding of the two upload components of this repository:

* `src/src/components/MultiFileUpload.tsx` — the multi-file uploader
  (`MultiFileUpload`): an ordered collection of tracked file entries with
  per-entry progress, the handlers `handleFileSelect`, `handleUpload`,
  `removeFile`, `handleClear`, and the helper `formatFileSize`.
* `src/unnamed/part_000` — the single-file uploader (`FileUploader`) with its
  status enumeration and `handleFileUpload` handler.

JavaScript numbers are modelled with exact arithmetic (`ℕ`, `ℤ`, `ℚ`): every
arithmetic expression the claims touch (`loaded * 100 / total`, `bytes /
1024 ^ i`, `toFixed(1)`) is exact in binary floating point at the inputs
concerned (integer byte counts below 2^53 divided by powers of two), so the
exact model and the double-precision computation agree there.
-/

/-- A browser `File` handle as the components read it: display name, byte
size, declared MIME type (`file.name`, `file.size`, `file.type`). -/
structure FileMeta where
  name : String
  size : ℕ
  type : String
deriving DecidableEq, Repr

/-- The `FileWithProgress` record of `MultiFileUpload.tsx` lines 15–20:
identifier, underlying file handle, progress percentage, completion flag. -/
structure FileWithProgress where
  id : String
  file : FileMeta
  progress : ℕ
  uploaded : Bool
deriving DecidableEq, Repr

/-- The component state of `MultiFileUpload` (lines 23–24): the tracked file
collection `files` and the global `uploading` flag. -/
structure MultiState where
  files : List FileWithProgress
  uploading : Bool
deriving DecidableEq, Repr

/-- One new tracked entry per selected handle (lines 33–38):
`{ file, progress: 0, uploaded: false, id: file.name }`. -/
def mkEntry (file : FileMeta) : FileWithProgress :=
  { id := file.name, file := file, progress := 0, uploaded := false }

/-- The handler `handleFileSelect` (lines 28–45): if the picker delivered no files the
handler returns early; otherwise one new entry per handle is appended to the
existing collection (`setFiles([...files, ...newFiles])`). The input control
reset (lines 42–44) does not touch component state and is not modelled. -/
def handleFileSelect (selected : List FileMeta) (s : MultiState) : MultiState :=
  if selected.isEmpty then s
  else { s with files := s.files ++ selected.map mkEntry }

/-- The guarded start of `handleUpload` (lines 47–52): when the collection is
empty or an upload is already in flight the handler returns without issuing
requests or changing state; otherwise it sets `uploading` true and proceeds.
The returned Bool records whether requests were dispatched. -/
def handleUploadStart (s : MultiState) : MultiState × Bool :=
  if s.files.isEmpty || s.uploading then (s, false)
  else ({ s with uploading := true }, true)

/-- The progress computation of the `onUploadProgress` callback (lines 61–63):
`Math.round((progressEvent.loaded * 100) / (progressEvent.total || 1))`.
`total` is optional and `total || 1` replaces both an absent and a zero total
by 1. `Math.round x = ⌊x + 1/2⌋`, which on the exact value
`loaded * 100 / t` equals `(200 * loaded + t) / (2 * t)` in integer division. -/
def computeProgress (loaded : ℕ) (total : Option ℕ) : ℕ :=
  let t : ℕ := match total with
    | some t => if t = 0 then 1 else t
    | none => 1
  (200 * loaded + t) / (2 * t)

/-- The state update of the `onUploadProgress` callback (lines 64–68): every
entry whose `id` equals the capturing task's `fileWithProgress.id` has its
`progress` field replaced, all other entries are returned unchanged. -/
def applyProgress (entryId : String) (progress : ℕ)
    (files : List FileWithProgress) : List FileWithProgress :=
  files.map fun f => if f.id = entryId then { f with progress := progress } else f

/-- The completion update after a request resolves (lines 72–78): every entry
whose `id` matches gets `uploaded := true`. -/
def markUploaded (entryId : String)
    (files : List FileWithProgress) : List FileWithProgress :=
  files.map fun f => if f.id = entryId then { f with uploaded := true } else f

/-- The handler `removeFile` (lines 89–91): `setFiles(prevFiles.filter(f => f.id !== id))`.
It reads neither the `uploading` flag nor anything else of the state. -/
def removeFile (entryId : String) (s : MultiState) : MultiState :=
  { s with files := s.files.filter fun f => f.id != entryId }

/-- The render guard of the per-item removal control (`FileItem`, line 226):
`{!uploading && <button onClick={() => onRemove(file.id)} ...>}` — the button
exists only while `uploading` is false. -/
def removeButtonShown (uploading : Bool) : Bool := !uploading

/-- The unit table of `formatFileSize` (line 266): `['B', 'KB', 'MB', 'GB']`. -/
def sizes : List String := ["B", "KB", "MB", "GB"]

/-- The unit index of `formatFileSize` (line 267):
`Math.floor(Math.log(bytes) / Math.log(1024))`, i.e. the floor of the base-1024
logarithm of `bytes`, which for a positive integer is `Nat.log 1024 bytes`. -/
def unitIndex (bytes : ℕ) : ℕ := Nat.log 1024 bytes

/-- The number rendering of line 268, `parseFloat(x.toFixed(1))` interpolated by the template literal, on
the exact value `q ≥ 0`: `toFixed(1)` picks the integer `n` for which `n / 10`
is nearest to `q`, ties to the larger `n`, so `n = ⌊10 q + 1/2⌋`; `parseFloat`
then drops a trailing `.0`, so a whole result prints without a decimal and any
other result with exactly one decimal digit. -/
def renderFixed1 (q : ℚ) : String :=
  if ⌊q * 10 + 1 / 2⌋ % 10 = 0 then toString (⌊q * 10 + 1 / 2⌋ / 10)
  else toString (⌊q * 10 + 1 / 2⌋ / 10) ++ "." ++ toString (⌊q * 10 + 1 / 2⌋ % 10)

/-- The helper `formatFileSize` (lines 263–269). A JavaScript out-of-bounds index read
yields `undefined`, which the template literal renders as the string
`"undefined"`; `(sizes.get? i).getD "undefined"` reproduces exactly that. -/
def formatFileSize (bytes : ℕ) : String :=
  if bytes = 0 then "0 B"
  else
    renderFixed1 ((bytes : ℚ) / 1024 ^ unitIndex bytes) ++ " "
      ++ ((sizes.get? (unitIndex bytes)).getD "undefined")

/-- How a dispatched request settles: the promise resolves or rejects. -/
inductive Outcome where
  | resolve
  | reject
deriving DecidableEq, Repr

/-- A dispatched request in a batch: the instant (abstract time) at which its
promise settles, and whether it resolves or rejects. -/
structure Request where
  settleTime : ℕ
  outcome : Outcome
deriving DecidableEq, Repr

/-- Each upload task of `handleUpload` (lines 54–82) wraps its request in
`try { await axios.post ... } catch (error) { console.error(error) }`: the
task's own promise therefore always resolves, at the instant the underlying
request settles, whether that request resolved or rejected. -/
def taskSettleTime (r : Request) : ℕ := r.settleTime

/-- A `Promise.all` join over a list of promises that all eventually resolve settles
exactly when the last of them does. -/
def promiseAllTime (ts : List ℕ) : ℕ := ts.foldr max 0

/-- The instant at which `await Promise.all(uploadPromises)` (line 84) returns
and `setUploading(false)` (line 86) runs, for a batch of requests. -/
def batchFinishTime (reqs : List Request) : ℕ :=
  promiseAllTime (reqs.map taskSettleTime)

/-- The global `uploading` flag over time during a batch started at instant 0:
set true at dispatch (line 52), reset false when the join of line 84 completes
(line 86). -/
def uploadingAt (reqs : List Request) (t : ℕ) : Bool :=
  decide (t < batchFinishTime reqs)

/-- The status enumeration of the single uploader (`part_000` line 4):
`'idle' | 'uploading' | 'success' | 'error'`. -/
inductive UploadStatus where
  | idle
  | uploading
  | success
  | error
deriving DecidableEq, Repr

/-- The terminal status written by `handleFileUpload`: `success` when the
request resolves (line 30), `error` when it rejects (line 32). -/
def requestFinalStatus : Outcome → UploadStatus
  | Outcome.resolve => UploadStatus.success
  | Outcome.reject => UploadStatus.error

/-- The sequence of status writes one run of `handleFileUpload` (`part_000`
lines 16–35) performs: none when no file is selected (line 17), otherwise
`uploading` (line 19) followed by the request's terminal status. -/
def handleFileUploadTrace (file : Option FileMeta) (out : Outcome) :
    List UploadStatus :=
  match file with
  | none => []
  | some _ => [UploadStatus.uploading, requestFinalStatus out]

/-- The index `unitIndex` is characterized by the 1024-power bracket the byte count
falls in. -/
theorem unitIndex_eq {b i : ℕ} (h₁ : 1024 ^ i ≤ b) (h₂ : b < 1024 ^ (i + 1)) :
    unitIndex b = i :=
  Nat.log_eq_of_pow_le_of_lt_pow h₁ h₂

/-- An element of a list is bounded by the `Promise.all` join instant. -/
theorem le_promiseAllTime {x : ℕ} {ts : List ℕ} (hx : x ∈ ts) :
    x ≤ promiseAllTime ts := by
  induction ts with
  | nil => cases hx
  | cons a l ih =>
    rcases List.mem_cons.mp hx with h | h
    · subst h; exact le_max_left _ _
    · exact le_trans (ih h) (le_max_right _ _)

/-- Two distinct selected files that share the display name "a", and a file
with a different name, used in concrete scenarios below. -/
def fileA1 : FileMeta := { name := "a", size := 1, type := "" }

def fileA2 : FileMeta := { name := "a", size := 2, type := "" }

def fileB : FileMeta := { name := "b", size := 3, type := "" }

/-- C1 counterexample: the claim that a progress update routed by entry X's
identifier leaves every entry Y ≠ X unchanged, even when two distinct entries
were created from files sharing a display name, is false. With two distinct
entries both created from files named "a", the progress callback of the first
entry (X, at position 0) also rewrites the progress of the second entry (Y, at
position 1): Y's field changes from 0 to 50. -/
theorem applyProgress_same_name_entries_both_updated :
    (applyProgress (mkEntry fileA1).id 50 [mkEntry fileA1, mkEntry fileA2])[1]?
        = some { mkEntry fileA2 with progress := 50 } ∧
    { mkEntry fileA2 with progress := 50 } ≠ mkEntry fileA2 := by
  decide

/-- C1 amended: a progress update routed by an identifier rewrites the
progress field of every entry whose identifier equals it (so two entries
created from same-named files are updated together) and leaves every entry
with a different identifier entirely unchanged; no completion flag is altered
by a progress update. -/
theorem applyProgress_pointwise (files : List FileWithProgress)
    (entryId : String) (p i : ℕ) (y : FileWithProgress)
    (hy : files[i]? = some y) :
    (y.id ≠ entryId → (applyProgress entryId p files)[i]? = some y) ∧
    (y.id = entryId →
      (applyProgress entryId p files)[i]?
        = some { y with progress := p, uploaded := y.uploaded }) := by
  constructor <;> intro h <;>
    simp [applyProgress, List.getElem?_map, hy, h]

/-- C1 amended, concrete instance: an entry named "b" is untouched by a
progress update routed to "a", while a second entry named "a" is rewritten. -/
theorem applyProgress_pointwise_witness :
    ((applyProgress "a" 50 [mkEntry fileA1, mkEntry fileB])[1]?
        = some (mkEntry fileB)) ∧
    ((applyProgress "a" 50 [mkEntry fileA1, mkEntry fileA2])[1]?
        = some { mkEntry fileA2 with progress := 50 }) :=
  ⟨(applyProgress_pointwise [mkEntry fileA1, mkEntry fileB] "a" 50 1
      (mkEntry fileB) (by decide)).1 (by decide),
   (applyProgress_pointwise [mkEntry fileA1, mkEntry fileA2] "a" 50 1
      (mkEntry fileA2) (by decide)).2 (by decide)⟩

/-- C2 counterexample: `formatFileSize(1048576)` is `"1 MB"`, not `"1.0 MB"`:
`toFixed(1)` yields `"1.0"` but the enclosing `parseFloat` call strips the
trailing `.0` before the template literal renders the number. -/
theorem formatFileSize_megabyte_drops_decimal :
    formatFileSize 1048576 = "1 MB" ∧ "1 MB" ≠ "1.0 MB" := by
  have h : unitIndex 1048576 = 2 := unitIndex_eq (by norm_num) (by norm_num)
  have h10 : ⌊((1048576 : ℚ) / 1024 ^ 2 * 10 + 1 / 2)⌋ = 10 := by norm_num
  refine ⟨?_, by decide⟩
  simp only [formatFileSize, h, renderFixed1, h10]
  norm_num [sizes]
  decide

/-- C2 amended: `formatFileSize 0 = "0 B"`, `formatFileSize 1536 = "1.5 KB"`,
`formatFileSize 1048576 = "1 MB"` (whole values print with no decimal because
`parseFloat` strips the trailing `.0`; all other values carry exactly one
decimal digit); in general the formatter steps through units at powers of
1024: for a byte count in the bracket `[1024 ^ i, 1024 ^ (i+1))` with `i < 4`
it renders the bracket's quotient followed by the `i`-th entry of the unit
table B/KB/MB/GB. -/
theorem formatFileSize_values_and_units :
    formatFileSize 0 = "0 B" ∧ formatFileSize 1536 = "1.5 KB" ∧
    formatFileSize 1048576 = "1 MB" ∧
    ∀ b i : ℕ, 1024 ^ i ≤ b → b < 1024 ^ (i + 1) → i < 4 →
      formatFileSize b
          = renderFixed1 ((b : ℚ) / 1024 ^ i) ++ " " ++ (sizes.get? i).getD "undefined"
        ∧ (sizes.get? i).isSome = true := by
  refine ⟨by decide, ?_, ?_, ?_⟩
  · have h : unitIndex 1536 = 1 := unitIndex_eq (by norm_num) (by norm_num)
    have h15 : ⌊((1536 : ℚ) / 1024 ^ 1 * 10 + 1 / 2)⌋ = 15 := by norm_num
    simp only [formatFileSize, h, renderFixed1, h15]
    norm_num [sizes]
    decide
  · have h : unitIndex 1048576 = 2 := unitIndex_eq (by norm_num) (by norm_num)
    have h10 : ⌊((1048576 : ℚ) / 1024 ^ 2 * 10 + 1 / 2)⌋ = 10 := by norm_num
    simp only [formatFileSize, h, renderFixed1, h10]
    norm_num [sizes]
    decide
  · intro b i h₁ h₂ hi4
    have hp : 0 < 1024 ^ i := pow_pos (by norm_num) i
    have hb0 : b ≠ 0 := by omega
    have hu : unitIndex b = i := unitIndex_eq h₁ h₂
    constructor
    · simp only [formatFileSize, if_neg hb0, hu]
    · interval_cases i <;> decide

/-- C2 amended, concrete instance: 2048 bytes sits in the KB bracket and the
general bracket rule applies at it. -/
theorem formatFileSize_values_and_units_witness :
    formatFileSize 2048
        = renderFixed1 ((2048 : ℚ) / 1024 ^ 1) ++ " " ++ (sizes.get? 1).getD "undefined"
      ∧ (sizes.get? 1).isSome = true :=
  (formatFileSize_values_and_units).2.2.2 2048 1 (by norm_num) (by norm_num)
    (by norm_num)

/-- C3 counterexample: the claim that `removeEntry` is rejected while the
global `uploading` flag is true is false. In the concrete state whose
collection holds the single entry named "a" and whose `uploading` flag is
true, `removeFile "a"` empties the collection rather than leaving it
unchanged. -/
theorem removeFile_ignores_uploading_flag_cex :
    ({ files := [mkEntry fileA1], uploading := true } : MultiState).uploading
        = true ∧
    (removeFile "a" { files := [mkEntry fileA1], uploading := true }).files
        ≠ ({ files := [mkEntry fileA1], uploading := true } : MultiState).files := by
  decide

/-- C3 amended: `removeFile` never consults the `uploading` flag — it filters
the collection identically whether or not an upload is in flight and leaves
the flag itself untouched; the guard exists only in the view, where the
per-item removal control is not rendered while `uploading` is true, so no
user-initiated removal can occur during a bulk upload. -/
theorem removeFile_unconditional_ui_guard (fs : List FileWithProgress)
    (entryId : String) :
    (removeFile entryId { files := fs, uploading := true }).files
        = (removeFile entryId { files := fs, uploading := false }).files ∧
    (removeFile entryId { files := fs, uploading := true }).uploading = true ∧
    removeButtonShown true = false :=
  ⟨rfl, rfl, rfl⟩

/-- C4 counterexample: the claim that the stored progress value always lies in
0–100 is false. For a progress event with 5 bytes loaded and an unknown total,
the fallback divisor 1 makes the stored value 500. -/
theorem computeProgress_unknown_total_exceeds_100 :
    computeProgress 5 none = 500 ∧ 100 < computeProgress 5 none := by
  decide

/-- C4 amended: the stored value is `round(loaded * 100 / total)` with a
divisor of 1 substituted when the total is absent (or zero); it lies in 0–100
whenever the total is known, positive, and at least the loaded count, but with
an unknown total it equals `100 * loaded`, which exceeds 100 as soon as more
than one byte is loaded. -/
theorem computeProgress_characterization (loaded total : ℕ) :
    computeProgress loaded none = 100 * loaded ∧
    computeProgress loaded (some 0) = 100 * loaded ∧
    (0 < total → loaded ≤ total → computeProgress loaded (some total) ≤ 100) := by
  refine ⟨?_, ?_, ?_⟩
  · show (200 * loaded + 1) / (2 * 1) = 100 * loaded
    omega
  · show (200 * loaded + 1) / (2 * 1) = 100 * loaded
    omega
  · intro htot hle
    show (200 * loaded + if total = 0 then 1 else total)
        / (2 * if total = 0 then 1 else total) ≤ 100
    rw [if_neg (Nat.pos_iff_ne_zero.mp htot)]
    have h2t : 0 < 2 * total := by omega
    have := (Nat.div_lt_iff_lt_mul h2t).mpr
      (by omega : 200 * loaded + total < 101 * (2 * total))
    omega

/-- C4 amended, concrete instances: 50 of 100 bytes loaded stays within the
range; 7 bytes loaded with an unknown total is stored as 700. -/
theorem computeProgress_characterization_witness :
    computeProgress 7 none = 700 ∧ computeProgress 50 (some 100) ≤ 100 := by
  refine ⟨?_, (computeProgress_characterization 50 100).2.2 (by norm_num) (by norm_num)⟩
  have h := (computeProgress_characterization 7 0).1
  omega

/-- C5: the batch join of `handleUpload` waits for every request. Once the
`uploading` flag reads false at an instant `t`, every request of the batch had
already settled by `t`; and the join instant does not depend on the outcomes
at all — each task catches its own rejection, so replacing any requests'
outcomes (for instance turning a fast request into a rejecting one) leaves the
instant at which the flag resets unchanged. -/
theorem uploading_reset_after_all_settle (reqs : List Request) (t : ℕ) :
    (uploadingAt reqs t = false → ∀ r ∈ reqs, taskSettleTime r ≤ t) ∧
    (∀ f : Request → Outcome,
      batchFinishTime (reqs.map fun r => { r with outcome := f r })
        = batchFinishTime reqs) := by
  constructor
  · intro hfin r hr
    have hft : batchFinishTime reqs ≤ t := by
      simpa [uploadingAt] using hfin
    exact le_trans (le_promiseAllTime (List.mem_map_of_mem taskSettleTime hr)) hft
  · intro f
    simp [batchFinishTime, List.map_map]
    rfl

/-- C5 witness: a batch of one fast rejecting request and one slow resolving
request. At instant 5 the flag is down and both requests have settled; at
instant 4 the early rejection has not ended the wait. -/
theorem uploading_reset_after_all_settle_witness :
    uploadingAt [⟨1, Outcome.reject⟩, ⟨5, Outcome.resolve⟩] 5 = false ∧
    (∀ r ∈ ([⟨1, Outcome.reject⟩, ⟨5, Outcome.resolve⟩] : List Request),
      taskSettleTime r ≤ 5) ∧
    uploadingAt [⟨1, Outcome.reject⟩, ⟨5, Outcome.resolve⟩] 4 = true :=
  ⟨by decide,
   (uploading_reset_after_all_settle [⟨1, Outcome.reject⟩, ⟨5, Outcome.resolve⟩]
      5).1 (by decide),
   by decide⟩

/-- C6: one run of the single uploader's `handleFileUpload` with a file
selected writes the status sequence `idle → uploading → success` when the
request resolves and `idle → uploading → error` when it rejects; no run ever
writes `idle`, so the status never returns to `idle` except by a fresh mount. -/
theorem single_upload_status_trace (f : FileMeta) (out : Outcome) :
    (UploadStatus.idle :: handleFileUploadTrace (some f) Outcome.resolve
        = [UploadStatus.idle, UploadStatus.uploading, UploadStatus.success]) ∧
    (UploadStatus.idle :: handleFileUploadTrace (some f) Outcome.reject
        = [UploadStatus.idle, UploadStatus.uploading, UploadStatus.error]) ∧
    (UploadStatus.idle :: handleFileUploadTrace (some f) out
        = [UploadStatus.idle, UploadStatus.uploading, requestFinalStatus out]) ∧
    (∀ file : Option FileMeta, UploadStatus.idle ∉ handleFileUploadTrace file out) := by
  refine ⟨rfl, rfl, rfl, ?_⟩
  intro file
  cases file <;> cases out <;> simp [handleFileUploadTrace, requestFinalStatus]

/-- C7: `handleUpload` is a no-op when the collection is empty or an upload is
already in flight: the state (collection and flag) is returned unchanged and
no request is dispatched. -/
theorem handleUploadStart_noop (s : MultiState)
    (h : s.files = [] ∨ s.uploading = true) :
    handleUploadStart s = (s, false) := by
  rcases h with h | h <;> simp [handleUploadStart, h]

/-- C7, concrete instances: the empty collection, and a busy state. -/
theorem handleUploadStart_noop_witness :
    handleUploadStart { files := [], uploading := false }
        = ({ files := [], uploading := false }, false) ∧
    handleUploadStart { files := [mkEntry fileA1], uploading := true }
        = ({ files := [mkEntry fileA1], uploading := true }, false) :=
  ⟨handleUploadStart_noop _ (Or.inl rfl), handleUploadStart_noop _ (Or.inr rfl)⟩

/-- C8: `handleFileSelect` appends and preserves insertion order — selecting
[A] and then [B] over any existing collection yields the old collection
followed by A's entry and then B's entry (so the flag is untouched, each new
entry starts with progress 0 and completion false and carries the file's name
as identifier, and the collection grows by exactly two entries even when A and
B share a name: nothing is de-duplicated). -/
theorem handleFileSelect_appends (s : MultiState) (A B : FileMeta) :
    (handleFileSelect [B] (handleFileSelect [A] s)).files
        = s.files ++ [mkEntry A, mkEntry B] ∧
    (handleFileSelect [B] (handleFileSelect [A] s)).uploading = s.uploading ∧
    (mkEntry A).progress = 0 ∧ (mkEntry A).uploaded = false ∧
    (mkEntry A).id = A.name ∧
    (handleFileSelect [B] (handleFileSelect [A] s)).files.length
        = s.files.length + 2 := by
  simp [handleFileSelect, mkEntry]

/-- C9: `removeFile` removes every entry whose identifier equals the given
one, not just one occurrence — membership in the result is membership in the
original with a different identifier; concretely, one call with "a" deletes
both distinct entries created from two files named "a". -/
theorem removeFile_removes_all_matching (s : MultiState) (entryId : String)
    (f : FileWithProgress) :
    (f ∈ (removeFile entryId s).files ↔ f ∈ s.files ∧ f.id ≠ entryId) ∧
    (removeFile "a"
        { files := [mkEntry fileA1, mkEntry fileA2], uploading := false }).files
      = [] := by
  constructor
  · simp [removeFile, List.mem_filter, bne_iff_ne]
  · decide

/-- C10: for every byte count of at least 1024^4 the computed unit index runs
past the end of the four-element unit table, the lookup is out of bounds
(`none`, JavaScript `undefined`), and the rendered string ends in
`"undefined"` instead of a unit; for positive byte counts below 1024^4 the
lookup always succeeds. -/
theorem formatFileSize_unit_table_overflow (b : ℕ) :
    (1024 ^ 4 ≤ b →
      4 ≤ unitIndex b ∧ sizes.get? (unitIndex b) = none ∧
      ∃ p, formatFileSize b = p ++ " " ++ "undefined") ∧
    (0 < b → b < 1024 ^ 4 → (sizes.get? (unitIndex b)).isSome = true) := by
  constructor
  · intro h
    have hb0 : b ≠ 0 := by
      have : (0 : ℕ) < 1024 ^ 4 := by norm_num
      omega
    have h4 : 4 ≤ unitIndex b :=
      (Nat.pow_le_iff_le_log (by norm_num) hb0).mp h
    have hnone : sizes.get? (unitIndex b) = none := by
      apply List.get?_eq_none.mpr
      simpa [sizes] using h4
    refine ⟨h4, hnone, renderFixed1 ((b : ℚ) / 1024 ^ unitIndex b), ?_⟩
    simp only [formatFileSize, if_neg hb0, hnone, Option.getD_none]
  · intro hb0 hlt
    have h4 : unitIndex b < 4 :=
      Nat.log_lt_of_lt_pow (Nat.pos_iff_ne_zero.mp hb0) hlt
    interval_cases h : unitIndex b <;> decide

/-- C10, concrete instances: one terabyte (1024^4 bytes) overflows the table
and renders with no valid unit, while 5 bytes resolves a unit. -/
theorem formatFileSize_unit_table_overflow_witness :
    (4 ≤ unitIndex 1099511627776 ∧
      sizes.get? (unitIndex 1099511627776) = none ∧
      ∃ p, formatFileSize 1099511627776 = p ++ " " ++ "undefined") ∧
    (sizes.get? (unitIndex 5)).isSome = true :=
  ⟨(formatFileSize_unit_table_overflow 1099511627776).1 (by norm_num),
   (formatFileSize_unit_table_overflow 5).2 (by norm_num) (by norm_num)⟩
